import Mathlib

/-!
Verification development for the hyprterminal trading core.

Shallow embedding of the Go sources:
  * `src/internal/engine/backtester.go`  (Backtester.simulatePositions,
    Backtester.closePosition, Backtester.calculateMetrics, Backtester.Run)
  * `src/internal/position/manager.go`   (Manager.HandleSignal,
    Manager.ClosePosition, Manager.CheckTPSL)
  * `src/internal/engine/engine.go`      (Engine.StopStrategy, close fragment)
  * the mock exchange adapter           (MockAdapter.OpenPosition / ClosePosition)

Conventions of the embedding:
  * Go float64 prices, sizes and PnL figures are modelled over `ℚ` (the Go
    code carries candle prices as decimal strings and parses them with
    `parseFloat`; we model the parsed numeric value directly).
  * Go `int` indices are modelled as `Int`; slice indexing is modelled as a
    checked access (`candleAt`) returning `Option`, so an out-of-range access
    (a Go panic) surfaces as `none` and propagates through the simulation.
  * Go epoch-millisecond timestamps are `Int`; `time.Duration` is `Int`
    nanoseconds.
  * The `error` results of the exchange Adapter are modelled as `Option`
    (open) and a `Bool` success flag (close); `time.Now()` is passed in as an
    explicit `now` parameter.
-/

/-- Signal type constants from the exchange package (Go `SignalType`, an int
enum).  `long`/`short` are the actionable values `SignalLong`/`SignalShort`;
`hold` stands for every other (non-actionable) value. -/
inductive SignalType where
  | long
  | short
  | hold
deriving DecidableEq, Repr

/-- Go struct `exchange.Signal`.  The Go field `Type` is rendered `SigType`
(`Type` is a Lean keyword); `Index` is a Go `int`, so it is an `Int` here. -/
structure Signal where
  Index : Int
  SigType : SignalType
  Price : ℚ
  Time : Int
  Reason : String
deriving DecidableEq, Repr

/-- Go struct `exchange.Position` (field set per the generated frontend model
and every use site in the Go sources). -/
structure Position where
  EntryIndex : Int
  EntryPrice : ℚ
  EntryTime : Int
  ExitIndex : Int
  ExitPrice : ℚ
  ExitTime : Int
  Side : String
  Size : ℚ
  PnL : ℚ
  PnLPercentage : ℚ
  IsOpen : Bool
  ExitReason : String
  MaxDrawdown : ℚ
  MaxProfit : ℚ
deriving DecidableEq, Repr

/-- The Go zero value of `exchange.Position` (a freshly allocated struct with
only some fields set uses this for the rest). -/
def Position.zero : Position :=
  { EntryIndex := 0, EntryPrice := 0, EntryTime := 0, ExitIndex := 0
    ExitPrice := 0, ExitTime := 0, Side := "", Size := 0, PnL := 0
    PnLPercentage := 0, IsOpen := false, ExitReason := "", MaxDrawdown := 0
    MaxProfit := 0 }

/-- Go struct `position.ExecutionConfig`. -/
structure ExecutionConfig where
  PositionSize : ℚ
  TradeDirection : String
  TakeProfitPercent : ℚ
  StopLossPercent : ℚ
deriving DecidableEq, Repr

/-- The fields of `hyperliquid.Candle` the core reads: `Timestamp` (epoch ms)
and `Close` (a decimal string in Go, parsed with `parseFloat`; we model the
parsed value). -/
structure Candle where
  Timestamp : Int
  Close : ℚ
deriving DecidableEq, Repr

/-- Checked Go slice access `candles[i]` for a Go `int` index: `none` models
the index-out-of-range panic (negative or past the end). -/
def candleAt (candles : List Candle) (i : Int) : Option Candle :=
  if 0 ≤ i then candles.get? i.toNat else none

/-- A signal is actionable when its type is `SignalLong` or `SignalShort`
(`signal.Type != exchange.SignalLong && signal.Type != exchange.SignalShort`
is the skip condition in both consumers). -/
def actionableSignal (s : Signal) : Prop :=
  s.SigType = SignalType.long ∨ s.SigType = SignalType.short

instance (s : Signal) : Decidable (actionableSignal s) := by
  unfold actionableSignal; infer_instance

/-- `side := "long"; if signal.Type == exchange.SignalShort { side = "short" }`. -/
def sideOf (s : Signal) : String :=
  if s.SigType = SignalType.short then "short" else "long"

namespace Backtester

/-- Go `(*Backtester).closePosition` (backtester.go:122-144): stamps the exit
fields from `candles[exitIndex]` and computes PnL percentage and realized PnL.
The `candles[exitIndex].Timestamp` read is the checked access; `none` models
the panic on an out-of-range `exitIndex`. -/
def closePosition (candles : List Candle) (position : Position)
    (exitIndex : Int) (exitPrice : ℚ) (reason : String) : Option Position :=
  match candleAt candles exitIndex with
  | none => none
  | some c =>
    let priceDiff : ℚ :=
      if position.Side = "long" then exitPrice - position.EntryPrice
      else position.EntryPrice - exitPrice
    let pnlPct := (priceDiff / position.EntryPrice) * 100
    some { position with
      ExitIndex := exitIndex
      ExitPrice := exitPrice
      ExitTime := c.Timestamp
      IsOpen := false
      ExitReason := reason
      PnLPercentage := pnlPct
      PnL := position.Size * position.EntryPrice * (pnlPct / 100) }

/-- The signal loop of Go `(*Backtester).simulatePositions`
(backtester.go:78-109), with the ledger (`positions`) and the current
position threaded as explicit state.  Note the Go code closes any open
current position on *every* actionable, filter-passing signal (there is no
same-side check), stamping reason `"Trend Reversal"`. -/
def simulateLoop (candles : List Candle) (config : ExecutionConfig) :
    List Signal → List Position → Option Position →
    Option (List Position × Option Position)
  | [], ledger, cur => some (ledger, cur)
  | s :: rest, ledger, cur =>
    if s.SigType ≠ SignalType.long ∧ s.SigType ≠ SignalType.short then
      simulateLoop candles config rest ledger cur
    else
      let side := sideOf s
      if (config.TradeDirection = "long" ∧ side = "short") ∨
         (config.TradeDirection = "short" ∧ side = "long") then
        simulateLoop candles config rest ledger cur
      else
        let newPos : Position :=
          { Position.zero with
            EntryIndex := s.Index, EntryPrice := s.Price, EntryTime := s.Time
            Side := side, Size := config.PositionSize, IsOpen := true }
        match cur with
        | some p =>
          if p.IsOpen then
            match closePosition candles p s.Index s.Price "Trend Reversal" with
            | none => none
            | some p' =>
              simulateLoop candles config rest (ledger ++ [p']) (some newPos)
          else simulateLoop candles config rest ledger (some newPos)
        | none => simulateLoop candles config rest ledger (some newPos)

/-- Go `(*Backtester).simulatePositions` (backtester.go:70-120): run the
signal loop, then close any remaining open position at the last candle's
close with reason `"End of Period"`.  `candles[len(candles)-1]` on an empty
slice is the second panic point, modelled by `List.getLast?`. -/
def simulatePositions (candles : List Candle) (signals : List Signal)
    (config : ExecutionConfig) : Option (List Position) :=
  match simulateLoop candles config signals [] none with
  | none => none
  | some (ledger, cur) =>
    match cur with
    | none => some ledger
    | some p =>
      if p.IsOpen then
        match candles.getLast? with
        | none => none
        | some lastCandle =>
          match closePosition candles p ((candles.length : Int) - 1)
              lastCandle.Close "End of Period" with
          | none => none
          | some p' => some (ledger ++ [p'])
      else some ledger

end Backtester

/-- The accumulator of the metrics loop in Go
`(*Backtester).calculateMetrics` (backtester.go:171-211): the local variables
`totalWin, totalLoss, winStreak, lossStreak, currentWinStreak,
currentLossStreak, totalHoldTime, totalCapitalInvested` together with the
`result` fields written inside the loop. -/
structure MetricsAcc where
  totalTrades : Nat
  winningTrades : Nat
  losingTrades : Nat
  totalPnL : ℚ
  totalWin : ℚ
  totalLoss : ℚ
  winStreak : Nat
  lossStreak : Nat
  currentWinStreak : Nat
  currentLossStreak : Nat
  totalHoldTime : Int
  totalCapitalInvested : ℚ
  maxDrawdown : ℚ
deriving DecidableEq, Repr

/-- All-zero initial accumulator. -/
def MetricsAcc.init : MetricsAcc :=
  { totalTrades := 0, winningTrades := 0, losingTrades := 0, totalPnL := 0
    totalWin := 0, totalLoss := 0, winStreak := 0, lossStreak := 0
    currentWinStreak := 0, currentLossStreak := 0, totalHoldTime := 0
    totalCapitalInvested := 0, maxDrawdown := 0 }

/-- Go struct `backtestMetrics` (backtester.go:146-162).  The Go field
`sharpeRatio` is rendered `sharpe`; `averageHoldTime` is a `time.Duration`
in nanoseconds. -/
structure backtestMetrics where
  totalPnL : ℚ
  totalPnLPercent : ℚ
  winRate : ℚ
  totalTrades : Nat
  winningTrades : Nat
  losingTrades : Nat
  averageWin : ℚ
  averageLoss : ℚ
  profitFactor : ℚ
  maxDrawdown : ℚ
  maxDrawdownPercent : ℚ
  sharpe : ℚ
  longestWinStreak : Nat
  longestLossStreak : Nat
  averageHoldTime : Int
deriving DecidableEq, Repr

/-- The all-zero metrics value (Go zero struct, returned for an empty
ledger). -/
def backtestMetrics.zero : backtestMetrics :=
  { totalPnL := 0, totalPnLPercent := 0, winRate := 0, totalTrades := 0
    winningTrades := 0, losingTrades := 0, averageWin := 0, averageLoss := 0
    profitFactor := 0, maxDrawdown := 0, maxDrawdownPercent := 0, sharpe := 0
    longestWinStreak := 0, longestLossStreak := 0, averageHoldTime := 0 }

namespace Backtester

/-- One iteration of the `for _, pos := range positions` loop of Go
`calculateMetrics` (backtester.go:176-211).  Open positions are skipped; a
position counts as a win iff `pos.PnL > 0` (zero-PnL trades land in the loss
branch); `if current > best { best = current }` on streaks is `max`;
`time.Duration(ms) * time.Millisecond` is `* 1000000` nanoseconds. -/
def metricsStep (acc : MetricsAcc) (pos : Position) : MetricsAcc :=
  if pos.IsOpen then acc
  else
    let acc1 := { acc with
      totalTrades := acc.totalTrades + 1
      totalPnL := acc.totalPnL + pos.PnL
      totalCapitalInvested := acc.totalCapitalInvested + pos.Size * pos.EntryPrice }
    let acc2 :=
      if 0 < pos.PnL then
        { acc1 with
          winningTrades := acc1.winningTrades + 1
          totalWin := acc1.totalWin + pos.PnL
          currentWinStreak := acc1.currentWinStreak + 1
          currentLossStreak := 0
          winStreak := max acc1.winStreak (acc1.currentWinStreak + 1) }
      else
        { acc1 with
          losingTrades := acc1.losingTrades + 1
          totalLoss := acc1.totalLoss + (-pos.PnL)
          currentLossStreak := acc1.currentLossStreak + 1
          currentWinStreak := 0
          lossStreak := max acc1.lossStreak (acc1.currentLossStreak + 1) }
    let acc3 :=
      if pos.MaxDrawdown < acc2.maxDrawdown then
        { acc2 with maxDrawdown := pos.MaxDrawdown }
      else acc2
    { acc3 with
      totalHoldTime := acc3.totalHoldTime + (pos.ExitTime - pos.EntryTime) * 1000000 }

/-- The post-loop computation of Go `calculateMetrics`
(backtester.go:213-236).  `time.Duration` division is 64-bit integer
division truncating toward zero (`Int.tdiv`). -/
def metricsFinalize (acc : MetricsAcc) : backtestMetrics :=
  let winRate : ℚ :=
    if 0 < acc.totalTrades then
      ((acc.winningTrades : ℚ) / (acc.totalTrades : ℚ)) * 100
    else 0
  let averageHoldTime : Int :=
    if 0 < acc.totalTrades then acc.totalHoldTime.tdiv (acc.totalTrades : Int)
    else 0
  let totalPnLPercent : ℚ :=
    if 0 < acc.totalTrades then
      (let avgCapitalInvested := acc.totalCapitalInvested / (acc.totalTrades : ℚ)
       if 0 < avgCapitalInvested then (acc.totalPnL / avgCapitalInvested) * 100
       else 0)
    else 0
  { totalPnL := acc.totalPnL
    totalPnLPercent := totalPnLPercent
    winRate := winRate
    totalTrades := acc.totalTrades
    winningTrades := acc.winningTrades
    losingTrades := acc.losingTrades
    averageWin :=
      if 0 < acc.winningTrades then acc.totalWin / (acc.winningTrades : ℚ) else 0
    averageLoss :=
      if 0 < acc.losingTrades then acc.totalLoss / (acc.losingTrades : ℚ) else 0
    profitFactor := if 0 < acc.totalLoss then acc.totalWin / acc.totalLoss else 0
    maxDrawdown := acc.maxDrawdown
    maxDrawdownPercent := 0
    sharpe := 0
    longestWinStreak := acc.winStreak
    longestLossStreak := acc.lossStreak
    averageHoldTime := averageHoldTime }

/-- Go `(*Backtester).calculateMetrics` (backtester.go:164-237): zero metrics
for an empty ledger, otherwise the loop followed by the finalization. -/
def calculateMetrics (positions : List Position) : backtestMetrics :=
  match positions with
  | [] => backtestMetrics.zero
  | _ => metricsFinalize (positions.foldl metricsStep MetricsAcc.init)

/-- Go `(*Backtester).Run` (backtester.go:23-67), restricted to the fields
the claims are about: the position ledger and the metrics block of the
returned `BacktestResult` (the remaining fields merely copy the inputs).
`none` models a panic inside `simulatePositions`. -/
def Run (candles : List Candle) (signals : List Signal)
    (config : ExecutionConfig) : Option (List Position × backtestMetrics) :=
  (simulatePositions candles signals config).map fun ps =>
    (ps, calculateMetrics ps)

end Backtester

/-- The exchange Adapter interface (adapter.go), restricted to the two
operations the Position Manager uses.  `OpenPosition` returns `none` for the
Go `error` case; `CloseOk symbol size = false` models
`ClosePosition(symbol, size)` returning a non-nil error. -/
structure Adapter where
  OpenPosition : String → String → ℚ → Int → Option Position
  CloseOk : String → ℚ → Bool

/-- Go `MockAdapter.OpenPosition` (the mock exchange adapter): always
succeeds and returns a fresh Position with `EntryTime = time.Now()`, the
side, the size and `IsOpen = true` — every other field, including
`EntryPrice`, is left at its zero value.  The Hyperliquid adapter
(hyperliquid.go) returns the same shape on success. -/
def mockOpenPosition (now : Int) (_symbol side : String) (size : ℚ)
    (_leverage : Int) : Option Position :=
  some { Position.zero with
    EntryTime := now, Side := side, Size := size, IsOpen := true }

/-- Go `MockAdapter` as an `Adapter`: opening always succeeds (see
`mockOpenPosition`), closing always returns nil error.  The mock's internal
positions map does not affect either result and is not modelled. -/
def mockAdapter (now : Int) : Adapter :=
  { OpenPosition := mockOpenPosition now
    CloseOk := fun _ _ => true }

/-- The `position.LivePosition` handle (implemented by `engine.LiveStrategy`):
the identifier, symbol, config and current-position slot the Position
Manager reads and writes. -/
structure LiveHandle where
  ID : String
  Symbol : String
  Config : ExecutionConfig
  Position : Option Position

/-- Go struct `position.Manager`: the exchange adapter and the manager-level
leverage (default 10). -/
structure Manager where
  exchange : Adapter
  leverage : Int

namespace Manager

/-- Go `(*Manager).ClosePosition` (manager.go:99-127): no-op when there is no
open position; calls the adapter's close and returns unchanged on failure;
on success marks closed, stamps exit price/reason/time (`time.Now()` is the
`now` parameter) and sets `PnL = (price-entry)*size` for a long,
`(entry-price)*size` otherwise.  The Go code mutates the position in place
through the handle; we return the updated handle. -/
def ClosePosition (m : Manager) (now : Int) (live : LiveHandle) (price : ℚ)
    (reason : String) : LiveHandle :=
  match live.Position with
  | none => live
  | some pos =>
    if pos.IsOpen = false then live
    else if m.exchange.CloseOk live.Symbol pos.Size = false then live
    else
      let pnl : ℚ :=
        if pos.Side = "long" then (price - pos.EntryPrice) * pos.Size
        else (pos.EntryPrice - price) * pos.Size
      { live with Position := some { pos with
          IsOpen := false, ExitPrice := price, ExitReason := reason
          ExitTime := now, PnL := pnl } }

/-- The tail of Go `(*Manager).HandleSignal` (manager.go:86-95): call the
adapter's open with the configured size and the manager leverage; on error
drop the signal (handle unchanged); on success overwrite the returned
position's `EntryPrice` with the `price` argument and store it. -/
def openNewPosition (m : Manager) (live : LiveHandle) (side : String)
    (price : ℚ) : LiveHandle :=
  match m.exchange.OpenPosition live.Symbol side live.Config.PositionSize
      m.leverage with
  | none => live
  | some newPos => { live with Position := some { newPos with EntryPrice := price } }

/-- Go `(*Manager).HandleSignal` (manager.go:49-96): ignore non-actionable
signal types; apply the trade-direction filter; ignore a same-side open
position; close an opposite-side open position with reason
`"Trend Reversal"` (and proceed to open regardless of that close's outcome);
then open the new position (`openNewPosition`). -/
def HandleSignal (m : Manager) (now : Int) (live : LiveHandle) (signal : Signal)
    (price : ℚ) : LiveHandle :=
  if signal.SigType ≠ SignalType.long ∧ signal.SigType ≠ SignalType.short then
    live
  else
    let side := sideOf signal
    if live.Config.TradeDirection = "long" ∧ side = "short" then live
    else if live.Config.TradeDirection = "short" ∧ side = "long" then live
    else
      match live.Position with
      | some pos =>
        if pos.IsOpen then
          if pos.Side = side then live
          else
            openNewPosition m (ClosePosition m now live price "Trend Reversal")
              side price
        else openNewPosition m live side price
      | none => openNewPosition m live side price

/-- The unrealized PnL percent computed inside Go `(*Manager).CheckTPSL`
(manager.go:139-144). -/
def tpslPnlPercent (pos : Position) (currentPrice : ℚ) : ℚ :=
  if pos.Side = "long" then ((currentPrice - pos.EntryPrice) / pos.EntryPrice) * 100
  else ((pos.EntryPrice - currentPrice) / pos.EntryPrice) * 100

/-- Go `(*Manager).CheckTPSL` (manager.go:130-151): no-op without an open
position; otherwise an if/else-if chain — take profit first
(`TakeProfitPercent > 0 && pnlPercent >= TakeProfitPercent`), else stop loss
(`StopLossPercent > 0 && pnlPercent <= -StopLossPercent`), each closing via
`ClosePosition` with reason `"Take Profit"` / `"Stop Loss"`. -/
def CheckTPSL (m : Manager) (now : Int) (live : LiveHandle) (currentPrice : ℚ) :
    LiveHandle :=
  match live.Position with
  | none => live
  | some pos =>
    if pos.IsOpen = false then live
    else
      let config := live.Config
      let pnlPercent := tpslPnlPercent pos currentPrice
      if 0 < config.TakeProfitPercent ∧ config.TakeProfitPercent ≤ pnlPercent then
        ClosePosition m now live currentPrice "Take Profit"
      else if 0 < config.StopLossPercent ∧ pnlPercent ≤ -config.StopLossPercent then
        ClosePosition m now live currentPrice "Stop Loss"
      else live

end Manager

/-- The position-close fragment of Go `(*Engine).StopStrategy`
(engine.go:106-110): after removing the instance, if it holds an open
position, close it via the Position Manager at
`currentPrice := state.Position.EntryPrice` with reason
`"Strategy Stopped"`.  Note no market price enters this path. -/
def stopStrategyClose (m : Manager) (now : Int) (live : LiveHandle) : LiveHandle :=
  match live.Position with
  | none => live
  | some pos =>
    if pos.IsOpen then
      Manager.ClosePosition m now live pos.EntryPrice "Strategy Stopped"
    else live

/-! ## Concrete inputs used by the claim theorems -/

/-- Two candles for the same-side-signal run. -/
def c1Candles : List Candle :=
  [{ Timestamp := 1000, Close := 100 }, { Timestamp := 2000, Close := 111 }]

/-- Two consecutive long signals (a same-side repeat while the first long
position is still open). -/
def c1Signals : List Signal :=
  [{ Index := 0, SigType := SignalType.long, Price := 100, Time := 1000, Reason := "up" },
   { Index := 1, SigType := SignalType.long, Price := 110, Time := 2000, Reason := "up again" }]

/-- Direction filter admitting both sides. -/
def c1Config : ExecutionConfig :=
  { PositionSize := 1, TradeDirection := "both", TakeProfitPercent := 0
    StopLossPercent := 0 }

/-- C1: per the spec, a same-side signal while already in that side's
position is a no-op (never re-enter), so the run above would produce a
single ledger entry closed at end of period.  The code instead closes the
open long at the second long signal (stamping reason `"Trend Reversal"`),
appends it, and re-enters: the ledger has two entries and the first one
carries the `"Trend Reversal"` reason. -/
theorem C1_same_side_signal_reenters :
    (Backtester.simulatePositions c1Candles c1Signals c1Config).map
        (fun l => l.map fun p => (p.ExitReason, p.IsOpen)) =
      some [("Trend Reversal", false), ("End of Period", false)] := by
  decide

/-- Handle with no open position, direction filter `both`. -/
def c2Live : LiveHandle :=
  { ID := "inst-1", Symbol := "ETH"
    Config := { PositionSize := 2, TradeDirection := "both"
                TakeProfitPercent := 0, StopLossPercent := 0 }
    Position := none }

/-- A long signal on the latest candle. -/
def c2Signal : Signal :=
  { Index := 3, SigType := SignalType.long, Price := 104, Time := 40, Reason := "up" }

/-- Manager over the mock adapter with `time.Now() = 7` and default leverage. -/
def c2Manager : Manager := { exchange := mockAdapter 7, leverage := 10 }

/-- C2 counterexample: the adapter's open operation returns a Position whose
`EntryPrice` is the zero value `0` (neither the mock nor the Hyperliquid
adapter populates a fill price), while `HandleSignal` stores the
`currentPrice` argument `105`; the two differ, refuting the claim that the
stored entry price equals the fill price returned by the adapter. -/
theorem C2_entry_price_differs_from_adapter_fill :
    ((Manager.HandleSignal c2Manager 7 c2Live c2Signal 105).Position.map
        Position.EntryPrice = some 105) ∧
    ((c2Manager.exchange.OpenPosition "ETH" "long" 2 10).map
        Position.EntryPrice = some 0) ∧
    (105 : ℚ) ≠ 0 := by
  refine ⟨by decide, by decide, by norm_num⟩

/-- `Manager.ClosePosition` only rewrites the `Position` slot of the handle. -/
theorem ClosePosition_preserves_handle (m : Manager) (now : Int)
    (live : LiveHandle) (price : ℚ) (reason : String) :
    (Manager.ClosePosition m now live price reason).Symbol = live.Symbol ∧
    (Manager.ClosePosition m now live price reason).Config = live.Config := by
  unfold Manager.ClosePosition
  cases h : live.Position with
  | none => exact ⟨rfl, rfl⟩
  | some pos =>
    by_cases h1 : pos.IsOpen = false <;>
      by_cases h2 : m.exchange.CloseOk live.Symbol pos.Size = false <;>
      simp [h1, h2]

/-- C2 amended: whenever `HandleSignal` reaches the open path (actionable
signal, direction filter passed, no same-side open position) and the
adapter's open succeeds returning `pos0`, the stored new Position is `pos0`
with its `EntryPrice` overwritten by the `price` argument (the current
price), not by any adapter fill price. -/
theorem C2_entry_price_is_current_price (m : Manager) (now : Int)
    (live : LiveHandle) (signal : Signal) (price : ℚ) (pos0 : Position)
    (hAct : actionableSignal signal)
    (hF1 : ¬(live.Config.TradeDirection = "long" ∧ sideOf signal = "short"))
    (hF2 : ¬(live.Config.TradeDirection = "short" ∧ sideOf signal = "long"))
    (hSame : ∀ p, live.Position = some p → p.IsOpen = true → p.Side ≠ sideOf signal)
    (hOpen : m.exchange.OpenPosition live.Symbol (sideOf signal)
        live.Config.PositionSize m.leverage = some pos0) :
    (Manager.HandleSignal m now live signal price).Position =
      some { pos0 with EntryPrice := price } := by
  have hAct' : ¬(signal.SigType ≠ SignalType.long ∧ signal.SigType ≠ SignalType.short) := by
    rcases hAct with h | h <;> simp [h]
  unfold Manager.HandleSignal
  rw [if_neg hAct', if_neg hF1, if_neg hF2]
  cases hp : live.Position with
  | none =>
    unfold Manager.openNewPosition
    rw [hOpen]
  | some pos =>
    dsimp only
    by_cases hOpenPos : pos.IsOpen
    · rw [if_pos hOpenPos, if_neg (hSame pos hp hOpenPos)]
      unfold Manager.openNewPosition
      have hsym := (ClosePosition_preserves_handle m now live price "Trend Reversal").1
      have hcfg := (ClosePosition_preserves_handle m now live price "Trend Reversal").2
      rw [hsym, hcfg, hOpen]
    · rw [if_neg hOpenPos]
      unfold Manager.openNewPosition
      rw [hOpen]

/-- Witness for the amended C2 at the concrete inputs above. -/
theorem C2_entry_price_witness :
    (Manager.HandleSignal c2Manager 7 c2Live c2Signal 105).Position =
      some { Position.zero with
        EntryTime := 7, Side := "long", Size := 2, IsOpen := true
        EntryPrice := 105 } :=
  C2_entry_price_is_current_price c2Manager 7 c2Live c2Signal 105
    { Position.zero with EntryTime := 7, Side := "long", Size := 2, IsOpen := true }
    (Or.inl rfl) (by decide) (by decide) (by intro p hp; simp [c2Live] at hp)
    (by decide)

/-- C4: `ClosePosition` is a no-op when the handle has no open Position (nil
or already closed), and when the adapter close fails it returns the handle
completely unchanged — the Position stays open with its exit fields and PnL
untouched. -/
theorem C4_close_noop_and_failure_keeps_position :
    (∀ (m : Manager) (now : Int) (live : LiveHandle) (price : ℚ) (reason : String),
      (∀ p, live.Position = some p → p.IsOpen = false) →
      Manager.ClosePosition m now live price reason = live) ∧
    (∀ (m : Manager) (now : Int) (live : LiveHandle) (pos : Position)
        (price : ℚ) (reason : String),
      live.Position = some pos → pos.IsOpen = true →
      m.exchange.CloseOk live.Symbol pos.Size = false →
      Manager.ClosePosition m now live price reason = live) := by
  constructor
  · intro m now live price reason hclosed
    unfold Manager.ClosePosition
    cases h : live.Position with
    | none => rfl
    | some pos =>
      dsimp only
      rw [if_pos (by simp [hclosed pos h])]
  · intro m now live pos price reason hp hopen hfail
    unfold Manager.ClosePosition
    rw [hp]
    dsimp only
    rw [if_neg (by simp [hopen]), if_pos (by simp [hfail])]

/-- An adapter whose close operation always fails. -/
def failCloseAdapter (now : Int) : Adapter :=
  { OpenPosition := mockOpenPosition now, CloseOk := fun _ _ => false }

/-- A handle holding an open long position entered at 100. -/
def c4Live : LiveHandle :=
  { ID := "inst-4", Symbol := "BTC"
    Config := { PositionSize := 1, TradeDirection := "both"
                TakeProfitPercent := 0, StopLossPercent := 0 }
    Position := some { Position.zero with
      EntryPrice := 100, Side := "long", Size := 1, IsOpen := true } }

/-- A handle with no position at all. -/
def c4LiveEmpty : LiveHandle := { c4Live with ID := "inst-4e", Position := none }

/-- Witness for C4 at concrete handles: a nil-position handle is untouched,
and a failing adapter leaves the open position untouched. -/
theorem C4_close_witness :
    Manager.ClosePosition { exchange := mockAdapter 3, leverage := 10 } 3
        c4LiveEmpty 50 "x" = c4LiveEmpty ∧
    Manager.ClosePosition { exchange := failCloseAdapter 3, leverage := 10 } 3
        c4Live 50 "x" = c4Live :=
  ⟨C4_close_noop_and_failure_keeps_position.1 _ 3 c4LiveEmpty 50 "x"
      (by intro p hp; simp [c4LiveEmpty, c4Live] at hp),
   C4_close_noop_and_failure_keeps_position.2 _ 3 c4Live _ 50 "x" rfl rfl rfl⟩

/-- C9: when `StopStrategy` finds an open Position and the adapter close
succeeds, the position is closed at its own entry price with reason
`"Strategy Stopped"` and the realized PnL is exactly 0 (no market price
enters this code path at all). -/
theorem C9_stop_strategy_close_zero_pnl (m : Manager) (now : Int)
    (live : LiveHandle) (pos : Position)
    (hp : live.Position = some pos) (hopen : pos.IsOpen = true)
    (hok : m.exchange.CloseOk live.Symbol pos.Size = true) :
    (stopStrategyClose m now live).Position =
      some { pos with
        IsOpen := false, ExitPrice := pos.EntryPrice
        ExitReason := "Strategy Stopped", ExitTime := now, PnL := 0 } := by
  unfold stopStrategyClose
  rw [hp]
  dsimp only
  rw [if_pos hopen]
  unfold Manager.ClosePosition
  rw [hp]
  dsimp only
  rw [if_neg (by simp [hopen]), if_neg (by simp [hok])]
  by_cases hside : pos.Side = "long" <;> simp [hside]

/-- Witness for C9: stopping the strategy of `c4Live` (open long entered at
100, succeeding mock adapter) records a `"Strategy Stopped"` close with zero
PnL. -/
theorem C9_stop_strategy_witness :
    (stopStrategyClose { exchange := mockAdapter 3, leverage := 10 } 9
        c4Live).Position =
      some { Position.zero with
        EntryPrice := 100, Side := "long", Size := 1, IsOpen := false
        ExitPrice := 100, ExitReason := "Strategy Stopped", ExitTime := 9
        PnL := 0 } :=
  C9_stop_strategy_close_zero_pnl _ 9 c4Live _ rfl rfl rfl

/-- Successful path of `Manager.ClosePosition`: with an open position and a
succeeding adapter close, the result is the handle with the position marked
closed, exit price/reason/time stamped and `PnL = (price-entry)*size` for a
long, `(entry-price)*size` otherwise. -/
theorem ClosePosition_success (m : Manager) (now : Int) (live : LiveHandle)
    (pos : Position) (price : ℚ) (reason : String)
    (hp : live.Position = some pos) (hopen : pos.IsOpen = true)
    (hok : m.exchange.CloseOk live.Symbol pos.Size = true) :
    Manager.ClosePosition m now live price reason =
      { live with Position := some { pos with
          IsOpen := false, ExitPrice := price, ExitReason := reason
          ExitTime := now
          PnL := if pos.Side = "long" then (price - pos.EntryPrice) * pos.Size
                 else (pos.EntryPrice - price) * pos.Size } } := by
  unfold Manager.ClosePosition
  rw [hp]
  dsimp only
  rw [if_neg (by simp [hopen]), if_neg (by simp [hok])]

/-- The realized PnL stamped by the Backtester's close. -/
theorem bt_closePosition_PnL (candles : List Candle) (pos q : Position)
    (exitIndex : Int) (exitPrice : ℚ) (reason : String)
    (h : Backtester.closePosition candles pos exitIndex exitPrice reason = some q) :
    q.PnL = pos.Size * pos.EntryPrice *
      ((((if pos.Side = "long" then exitPrice - pos.EntryPrice
          else pos.EntryPrice - exitPrice) / pos.EntryPrice) * 100) / 100) := by
  unfold Backtester.closePosition at h
  cases hc : candleAt candles exitIndex with
  | none => rw [hc] at h; exact absurd h (by simp)
  | some c =>
    rw [hc] at h
    dsimp only at h
    obtain rfl := (Option.some.injEq _ _).mp h
    rfl

/-- C3: for a position of side `"long"` or `"short"` with non-zero entry
price, size and exit price, the realized PnL computed by the live
`Manager.ClosePosition` equals the PnL the Backtester's close computes for
the same side/entry/exit/size, and both equal
`size * entryPrice * pnlPercent` with the side-dependent
`pnlPercent = ±(exit-entry)/entry`. -/
theorem C3_live_and_backtest_pnl_agree (candles : List Candle)
    (exitIndex : Int) (reasonBt reasonLive : String) (m : Manager) (now : Int)
    (live : LiveHandle) (pos q r : Position) (price : ℚ)
    (hSide : pos.Side = "long" ∨ pos.Side = "short")
    (hEntry : pos.EntryPrice ≠ 0) (hSize : pos.Size ≠ 0) (hExit : price ≠ 0)
    (hBt : Backtester.closePosition candles pos exitIndex price reasonBt = some q)
    (hLive : live.Position = some pos) (hOpen : pos.IsOpen = true)
    (hOk : m.exchange.CloseOk live.Symbol pos.Size = true)
    (hMgr : (Manager.ClosePosition m now live price reasonLive).Position = some r) :
    r.PnL = q.PnL ∧
    q.PnL = pos.Size * pos.EntryPrice *
      (if pos.Side = "long" then (price - pos.EntryPrice) / pos.EntryPrice
       else (pos.EntryPrice - price) / pos.EntryPrice) := by
  have hq := bt_closePosition_PnL candles pos q exitIndex price reasonBt hBt
  rw [ClosePosition_success m now live pos price reasonLive hLive hOpen hOk] at hMgr
  obtain rfl := (Option.some.injEq _ _).mp hMgr
  dsimp only
  rcases hSide with hside | hside
  · rw [hside] at hq ⊢
    rw [if_pos rfl] at hq ⊢
    rw [if_pos rfl]
    constructor
    · rw [hq]; field_simp; ring
    · rw [hq]; field_simp; ring
  · rw [hside] at hq ⊢
    rw [if_neg (by decide)] at hq ⊢
    rw [if_neg (by decide)]
    constructor
    · rw [hq]; field_simp; ring
    · rw [hq]; field_simp; ring

/-- Candle list for the C3 witness. -/
def c3Candles : List Candle := [{ Timestamp := 500, Close := 110 }]

/-- Open long entered at 100 with size 2. -/
def c3Pos : Position :=
  { Position.zero with
    EntryPrice := 100, Side := "long", Size := 2, IsOpen := true }

/-- Handle holding `c3Pos`. -/
def c3Live : LiveHandle :=
  { ID := "inst-3", Symbol := "BTC"
    Config := { PositionSize := 2, TradeDirection := "both"
                TakeProfitPercent := 0, StopLossPercent := 0 }
    Position := some c3Pos }

/-- Manager over the succeeding mock adapter for the C3 witness. -/
def c3Manager : Manager := { exchange := mockAdapter 500, leverage := 10 }

/-- Backtester close of `c3Pos` at 110: PnL percent 10, realized PnL 20. -/
def c3q : Position :=
  { c3Pos with
    ExitIndex := 0, ExitPrice := 110, ExitTime := 500, IsOpen := false
    ExitReason := "Reversal", PnLPercentage := 10, PnL := 20 }

/-- Live close of `c3Pos` at 110: realized PnL (110-100)*2 = 20. -/
def c3r : Position :=
  { c3Pos with
    IsOpen := false, ExitPrice := 110, ExitReason := "Reversal"
    ExitTime := 500, PnL := 20 }

/-- Witness for C3: both closes of a long entered at 100, size 2, exit 110
agree on realized PnL 20. -/
theorem C3_pnl_witness :
    c3r.PnL = c3q.PnL ∧
    c3q.PnL = c3Pos.Size * c3Pos.EntryPrice *
      (if c3Pos.Side = "long" then (110 - c3Pos.EntryPrice) / c3Pos.EntryPrice
       else (c3Pos.EntryPrice - 110) / c3Pos.EntryPrice) := by
  have hBt : Backtester.closePosition c3Candles c3Pos 0 110 "Reversal" =
      some c3q := by
    simp only [Backtester.closePosition, candleAt, c3Candles, c3Pos, c3q,
      Position.zero]
    norm_num
  have hMgr : (Manager.ClosePosition c3Manager 500 c3Live 110
      "Reversal").Position = some c3r := by
    rw [ClosePosition_success c3Manager 500 c3Live c3Pos 110 "Reversal"
      rfl rfl rfl]
    simp only [c3r, c3Pos, Position.zero]
    norm_num
  exact C3_live_and_backtest_pnl_agree c3Candles 0 "Reversal" "Reversal"
    c3Manager 500 c3Live c3Pos c3q c3r 110 (Or.inl rfl)
    (by norm_num [c3Pos, Position.zero]) (by norm_num [c3Pos, Position.zero])
    (by norm_num) hBt rfl rfl rfl hMgr

/-- Manager over the succeeding mock adapter for the C5 cases. -/
def c5Manager : Manager := { exchange := mockAdapter 11, leverage := 10 }

/-- Handle holding an open long entered at 100 with the given TP/SL
percents. -/
def c5Live (tp sl : ℚ) : LiveHandle :=
  { ID := "inst-5", Symbol := "SOL"
    Config := { PositionSize := 1, TradeDirection := "both"
                TakeProfitPercent := tp, StopLossPercent := sl }
    Position := some { Position.zero with
      EntryPrice := 100, Side := "long", Size := 1, IsOpen := true } }

/-- C5: for an open long entered at 100 — TakeProfitPercent=5 at price 105.5
closes with reason `"Take Profit"`; StopLossPercent=5 at price 94 closes
with `"Stop Loss"`; both thresholds 5 at price 102 close nothing; and in
general, whenever the take-profit condition holds the call closes with
`"Take Profit"` (the stop-loss branch of the if/else chain is never
consulted, so at most one trigger fires and take-profit is evaluated
first). -/
theorem C5_check_tpsl :
    ((Manager.CheckTPSL c5Manager 11 (c5Live 5 0) (211/2)).Position.map
        (fun p => (p.ExitReason, p.IsOpen)) = some ("Take Profit", false)) ∧
    ((Manager.CheckTPSL c5Manager 11 (c5Live 0 5) 94).Position.map
        (fun p => (p.ExitReason, p.IsOpen)) = some ("Stop Loss", false)) ∧
    (Manager.CheckTPSL c5Manager 11 (c5Live 5 5) 102 = c5Live 5 5) ∧
    (∀ (m : Manager) (now : Int) (live : LiveHandle) (pos : Position) (price : ℚ),
      live.Position = some pos → pos.IsOpen = true →
      0 < live.Config.TakeProfitPercent →
      live.Config.TakeProfitPercent ≤ Manager.tpslPnlPercent pos price →
      Manager.CheckTPSL m now live price =
        Manager.ClosePosition m now live price "Take Profit") := by
  refine ⟨?_, ?_, ?_, ?_⟩
  · norm_num [Manager.CheckTPSL, Manager.tpslPnlPercent, Manager.ClosePosition,
      c5Live, c5Manager, mockAdapter, Position.zero]
  · norm_num [Manager.CheckTPSL, Manager.tpslPnlPercent, Manager.ClosePosition,
      c5Live, c5Manager, mockAdapter, Position.zero]
  · norm_num [Manager.CheckTPSL, Manager.tpslPnlPercent, c5Live, Position.zero]
  · intro m now live pos price hp hopen htp hle
    unfold Manager.CheckTPSL
    rw [hp]
    dsimp only
    rw [if_neg (by simp [hopen]), if_pos ⟨htp, hle⟩]

/-- Witness for C5's general take-profit-first conjunct at the concrete
105.5 scenario. -/
theorem C5_check_tpsl_witness :
    Manager.CheckTPSL c5Manager 11 (c5Live 5 0) (211/2) =
      Manager.ClosePosition c5Manager 11 (c5Live 5 0) (211/2) "Take Profit" :=
  C5_check_tpsl.2.2.2 c5Manager 11 (c5Live 5 0) _ (211/2) rfl rfl
    (by norm_num [c5Live]) (by norm_num [c5Live, Manager.tpslPnlPercent, Position.zero])

/-- The fixed three-trade ledger of the C6 scenario: closed positions with
PnL +100, -50, +30. -/
def c6Ledger : List Position :=
  [{ Position.zero with Side := "long", PnL := 100 },
   { Position.zero with Side := "long", PnL := -50 },
   { Position.zero with Side := "long", PnL := 30 }]

/-- The metrics loop never records a loss total without recording a losing
trade: `losingTrades = 0` forces `totalLoss = 0`, preserved by each step. -/
theorem metricsStep_noLoss (acc : MetricsAcc) (pos : Position)
    (h : acc.losingTrades = 0 → acc.totalLoss = 0) :
    (Backtester.metricsStep acc pos).losingTrades = 0 →
      (Backtester.metricsStep acc pos).totalLoss = 0 := by
  unfold Backtester.metricsStep
  by_cases hio : pos.IsOpen
  · simpa [hio] using h
  · by_cases hpnl : 0 < pos.PnL <;>
      by_cases hmd : pos.MaxDrawdown < acc.maxDrawdown <;>
      simp [hio, hpnl, hmd] <;> exact h

/-- `metricsStep_noLoss` lifted along the fold over the ledger. -/
theorem metricsFold_noLoss (l : List Position) : ∀ acc : MetricsAcc,
    (acc.losingTrades = 0 → acc.totalLoss = 0) →
    ((l.foldl Backtester.metricsStep acc).losingTrades = 0 →
      (l.foldl Backtester.metricsStep acc).totalLoss = 0) := by
  induction l with
  | nil => intro acc h; exact h
  | cons pos rest ih =>
    intro acc h
    exact ih (Backtester.metricsStep acc pos) (metricsStep_noLoss acc pos h)

/-- C6: on the scripted ledger (+100, -50, +30) the Backtester's metrics are
winRate = 2/3*100 = 200/3 (displayed 66.7%), winningTrades = 2,
losingTrades = 1, averageWin = 65, averageLoss = 50,
profitFactor = 130/50 = 13/5 (2.6), longestWinStreak = 1,
longestLossStreak = 1; and in general the profit factor is 0 whenever no
losing trade is recorded (the division-by-zero guard). -/
theorem C6_metrics_values :
    ((Backtester.calculateMetrics c6Ledger).winRate = 200/3 ∧
     (Backtester.calculateMetrics c6Ledger).winningTrades = 2 ∧
     (Backtester.calculateMetrics c6Ledger).losingTrades = 1 ∧
     (Backtester.calculateMetrics c6Ledger).averageWin = 65 ∧
     (Backtester.calculateMetrics c6Ledger).averageLoss = 50 ∧
     (Backtester.calculateMetrics c6Ledger).profitFactor = 13/5 ∧
     (Backtester.calculateMetrics c6Ledger).longestWinStreak = 1 ∧
     (Backtester.calculateMetrics c6Ledger).longestLossStreak = 1) ∧
    (∀ ps : List Position, (Backtester.calculateMetrics ps).losingTrades = 0 →
      (Backtester.calculateMetrics ps).profitFactor = 0) := by
  constructor
  · norm_num [Backtester.calculateMetrics, Backtester.metricsStep,
      Backtester.metricsFinalize, MetricsAcc.init, c6Ledger, Position.zero,
      List.foldl]
  · intro ps h
    cases ps with
    | nil => rfl
    | cons p rest =>
      unfold Backtester.calculateMetrics at h ⊢
      dsimp only at h ⊢
      have hlt : ((p :: rest).foldl Backtester.metricsStep
          MetricsAcc.init).losingTrades = 0 := by
        simpa [Backtester.metricsFinalize] using h
      have hloss := metricsFold_noLoss (p :: rest) MetricsAcc.init
        (fun _ => rfl) hlt
      rw [List.foldl_cons] at hloss
      simp [Backtester.metricsFinalize, hloss]

/-- Witness for C6's general no-loss conjunct: a single winning trade yields
no recorded losses and a zero profit factor. -/
theorem C6_no_loss_witness :
    (Backtester.calculateMetrics
      [{ Position.zero with Side := "long", PnL := 100 }]).losingTrades = 0 ∧
    (Backtester.calculateMetrics
      [{ Position.zero with Side := "long", PnL := 100 }]).profitFactor = 0 := by
  have h0 : (Backtester.calculateMetrics
      [{ Position.zero with Side := "long", PnL := 100 }]).losingTrades = 0 := by
    norm_num [Backtester.calculateMetrics, Backtester.metricsStep,
      Backtester.metricsFinalize, MetricsAcc.init, Position.zero, List.foldl]
  exact ⟨h0, C6_metrics_values.2 _ h0⟩

/-- The Backtester's close always returns a closed position with the side it
was given. -/
theorem bt_closePosition_fields (candles : List Candle) (pos q : Position)
    (exitIndex : Int) (exitPrice : ℚ) (reason : String)
    (h : Backtester.closePosition candles pos exitIndex exitPrice reason = some q) :
    q.IsOpen = false ∧ q.Side = pos.Side := by
  unfold Backtester.closePosition at h
  cases hc : candleAt candles exitIndex with
  | none => rw [hc] at h; exact absurd h (by simp)
  | some c =>
    rw [hc] at h
    dsimp only at h
    obtain rfl := (Option.some.injEq _ _).mp h
    exact ⟨rfl, rfl⟩

/-- Every position the signal loop appends to the ledger is closed: the loop
state only ever carries one (optional) current position, and a position is
appended exactly when `Backtester.closePosition` succeeds on it. -/
theorem simulateLoop_all_closed (candles : List Candle)
    (config : ExecutionConfig) :
    ∀ (signals : List Signal) (ledger : List Position) (cur : Option Position)
      (st : List Position × Option Position),
      Backtester.simulateLoop candles config signals ledger cur = some st →
      (∀ p ∈ ledger, p.IsOpen = false) →
      ∀ p ∈ st.1, p.IsOpen = false := by
  intro signals
  induction signals with
  | nil =>
    intro ledger cur st h hled
    obtain rfl := (Option.some.injEq _ _).mp h
    exact hled
  | cons s rest ih =>
    intro ledger cur st h hled
    simp only [Backtester.simulateLoop] at h
    by_cases hA : (s.SigType ≠ SignalType.long ∧ s.SigType ≠ SignalType.short)
    · rw [if_pos hA] at h
      exact ih ledger cur st h hled
    · rw [if_neg hA] at h
      by_cases hB : ((config.TradeDirection = "long" ∧ sideOf s = "short") ∨
          (config.TradeDirection = "short" ∧ sideOf s = "long"))
      · rw [if_pos hB] at h
        exact ih ledger cur st h hled
      · rw [if_neg hB] at h
        cases cur with
        | none => exact ih ledger _ st h hled
        | some p =>
          dsimp only at h
          by_cases hio : p.IsOpen
          · rw [if_pos hio] at h
            cases hc : Backtester.closePosition candles p s.Index s.Price
                "Trend Reversal" with
            | none => rw [hc] at h; exact absurd h (by simp)
            | some p' =>
              rw [hc] at h
              refine ih (ledger ++ [p']) _ st h ?_
              intro x hx
              rcases List.mem_append.mp hx with hx | hx
              · exact hled x hx
              · obtain rfl := List.mem_singleton.mp hx
                exact (bt_closePosition_fields candles p x s.Index s.Price
                  "Trend Reversal" hc).1
          · rw [if_neg hio] at h
            exact ih ledger _ st h hled

/-- Every position in a successful `simulatePositions` ledger is closed. -/
theorem simulatePositions_all_closed (candles : List Candle)
    (signals : List Signal) (config : ExecutionConfig) (ps : List Position)
    (h : Backtester.simulatePositions candles signals config = some ps) :
    ∀ p ∈ ps, p.IsOpen = false := by
  unfold Backtester.simulatePositions at h
  cases hl : Backtester.simulateLoop candles config signals [] none with
  | none => rw [hl] at h; exact absurd h (by simp)
  | some st =>
    rw [hl] at h
    have hled := simulateLoop_all_closed candles config signals [] none st hl
      (by intro p hp; cases hp)
    obtain ⟨ledger, cur⟩ := st
    dsimp only at h hled
    cases cur with
    | none =>
      obtain rfl := (Option.some.injEq _ _).mp h
      exact hled
    | some p =>
      dsimp only at h
      by_cases hio : p.IsOpen
      · rw [if_pos hio] at h
        cases hg : candles.getLast? with
        | none => rw [hg] at h; exact absurd h (by simp)
        | some lastc =>
          rw [hg] at h
          dsimp only at h
          cases hc : Backtester.closePosition candles p
              ((candles.length : Int) - 1) lastc.Close "End of Period" with
          | none => rw [hc] at h; exact absurd h (by simp)
          | some p' =>
            rw [hc] at h
            obtain rfl := (Option.some.injEq _ _).mp h
            intro x hx
            rcases List.mem_append.mp hx with hx | hx
            · exact hled x hx
            · obtain rfl := List.mem_singleton.mp hx
              exact (bt_closePosition_fields candles p x _ lastc.Close
                "End of Period" hc).1
      · rw [if_neg hio] at h
        obtain rfl := (Option.some.injEq _ _).mp h
        exact hled

/-- C7: for every candle sequence, signal list and config, the simulation
state carries at most one (optional) current position by construction, and
every position in the ledger returned by `Backtester.Run` is already
closed. -/
theorem C7_run_ledger_all_closed (candles : List Candle)
    (signals : List Signal) (config : ExecutionConfig)
    (res : List Position × backtestMetrics)
    (h : Backtester.Run candles signals config = some res) :
    res.1.all (fun p => !p.IsOpen) = true := by
  unfold Backtester.Run at h
  cases hs : Backtester.simulatePositions candles signals config with
  | none => rw [hs] at h; exact absurd h (by simp)
  | some ps =>
    rw [hs] at h
    obtain rfl := (Option.some.injEq _ _).mp h
    have := simulatePositions_all_closed candles signals config ps hs
    simpa [List.all_eq_true] using this

/-- One candle for the C7 witness run. -/
def c7Candles : List Candle := [{ Timestamp := 1000, Close := 100 }]

/-- One long signal on that candle. -/
def c7Signals : List Signal :=
  [{ Index := 0, SigType := SignalType.long, Price := 100, Time := 1000, Reason := "u" }]

/-- The single ledger entry of the C7 witness run: the long opened at the
signal and closed flat at end of period. -/
def c7Pos : Position :=
  { EntryIndex := 0, EntryPrice := 100, EntryTime := 1000, ExitIndex := 0
    ExitPrice := 100, ExitTime := 1000, Side := "long", Size := 1, PnL := 0
    PnLPercentage := 0, IsOpen := false, ExitReason := "End of Period"
    MaxDrawdown := 0, MaxProfit := 0 }

/-- Metrics of the one-trade flat ledger (a zero-PnL trade counts as a
loss). -/
def c7Metrics : backtestMetrics :=
  { backtestMetrics.zero with
    totalTrades := 1, losingTrades := 1, longestLossStreak := 1 }

/-- Witness for C7: the concrete run produces a (non-empty) ledger and every
entry in it is closed. -/
theorem C7_run_ledger_witness :
    Backtester.Run c7Candles c7Signals c1Config = some ([c7Pos], c7Metrics) ∧
    ([c7Pos], c7Metrics).1.all (fun p => !p.IsOpen) = true := by
  have hsim : Backtester.simulatePositions c7Candles c7Signals c1Config =
      some [c7Pos] := by
    simp +decide [Backtester.simulatePositions, Backtester.simulateLoop,
      Backtester.closePosition, candleAt, sideOf, c7Candles, c7Signals,
      c1Config, c7Pos, Position.zero]
  have hmet : Backtester.calculateMetrics [c7Pos] = c7Metrics := by
    norm_num [Backtester.calculateMetrics, Backtester.metricsStep,
      Backtester.metricsFinalize, MetricsAcc.init, c7Pos, c7Metrics,
      backtestMetrics.zero, List.foldl]
  have hrun : Backtester.Run c7Candles c7Signals c1Config =
      some ([c7Pos], c7Metrics) := by
    unfold Backtester.Run
    rw [hsim, Option.map_some']
    rw [hmet]
  exact ⟨hrun, C7_run_ledger_all_closed c7Candles c7Signals c1Config _ hrun⟩

/-- The signal loop never creates a position of a side the direction filter
excludes: if a side that passes the filter can never be `bad`, then no
position of side `bad` ever enters the ledger or the current slot. -/
theorem simulateLoop_side_ne (candles : List Candle) (config : ExecutionConfig)
    (bad : String)
    (hgood : ∀ s : Signal,
      ¬((config.TradeDirection = "long" ∧ sideOf s = "short") ∨
        (config.TradeDirection = "short" ∧ sideOf s = "long")) →
      sideOf s ≠ bad) :
    ∀ (signals : List Signal) (ledger : List Position) (cur : Option Position)
      (st : List Position × Option Position),
      Backtester.simulateLoop candles config signals ledger cur = some st →
      (∀ p ∈ ledger, p.Side ≠ bad) → (∀ p, cur = some p → p.Side ≠ bad) →
      (∀ p ∈ st.1, p.Side ≠ bad) ∧ (∀ p, st.2 = some p → p.Side ≠ bad) := by
  intro signals
  induction signals with
  | nil =>
    intro ledger cur st h hled hcur
    obtain rfl := (Option.some.injEq _ _).mp h
    exact ⟨hled, hcur⟩
  | cons s rest ih =>
    intro ledger cur st h hled hcur
    simp only [Backtester.simulateLoop] at h
    by_cases hA : (s.SigType ≠ SignalType.long ∧ s.SigType ≠ SignalType.short)
    · rw [if_pos hA] at h
      exact ih ledger cur st h hled hcur
    · rw [if_neg hA] at h
      by_cases hB : ((config.TradeDirection = "long" ∧ sideOf s = "short") ∨
          (config.TradeDirection = "short" ∧ sideOf s = "long"))
      · rw [if_pos hB] at h
        exact ih ledger cur st h hled hcur
      · rw [if_neg hB] at h
        have hside := hgood s hB
        cases cur with
        | none =>
          refine ih ledger _ st h hled ?_
          intro p hp
          obtain rfl := (Option.some.injEq _ _).mp hp
          exact hside
        | some p =>
          dsimp only at h
          by_cases hio : p.IsOpen
          · rw [if_pos hio] at h
            cases hc : Backtester.closePosition candles p s.Index s.Price
                "Trend Reversal" with
            | none => rw [hc] at h; exact absurd h (by simp)
            | some p' =>
              rw [hc] at h
              refine ih (ledger ++ [p']) _ st h ?_ ?_
              · intro x hx
                rcases List.mem_append.mp hx with hx | hx
                · exact hled x hx
                · obtain rfl := List.mem_singleton.mp hx
                  rw [(bt_closePosition_fields candles p x s.Index s.Price
                    "Trend Reversal" hc).2]
                  exact hcur p rfl
              · intro x hx
                obtain rfl := (Option.some.injEq _ _).mp hx
                exact hside
          · rw [if_neg hio] at h
            refine ih ledger _ st h hled ?_
            intro x hx
            obtain rfl := (Option.some.injEq _ _).mp hx
            exact hside

/-- Lifting `simulateLoop_side_ne` through the end-of-period close. -/
theorem simulatePositions_side_ne (candles : List Candle)
    (signals : List Signal) (config : ExecutionConfig) (bad : String)
    (ps : List Position)
    (hgood : ∀ s : Signal,
      ¬((config.TradeDirection = "long" ∧ sideOf s = "short") ∨
        (config.TradeDirection = "short" ∧ sideOf s = "long")) →
      sideOf s ≠ bad)
    (h : Backtester.simulatePositions candles signals config = some ps) :
    ∀ p ∈ ps, p.Side ≠ bad := by
  unfold Backtester.simulatePositions at h
  cases hl : Backtester.simulateLoop candles config signals [] none with
  | none => rw [hl] at h; exact absurd h (by simp)
  | some st =>
    rw [hl] at h
    have hinv := simulateLoop_side_ne candles config bad hgood signals [] none
      st hl (by intro p hp; cases hp) (by intro p hp; cases hp)
    obtain ⟨ledger, cur⟩ := st
    dsimp only at h
    cases cur with
    | none =>
      obtain rfl := (Option.some.injEq _ _).mp h
      exact hinv.1
    | some p =>
      dsimp only at h
      by_cases hio : p.IsOpen
      · rw [if_pos hio] at h
        cases hg : candles.getLast? with
        | none => rw [hg] at h; exact absurd h (by simp)
        | some lastc =>
          rw [hg] at h
          dsimp only at h
          cases hc : Backtester.closePosition candles p
              ((candles.length : Int) - 1) lastc.Close "End of Period" with
          | none => rw [hc] at h; exact absurd h (by simp)
          | some p' =>
            rw [hc] at h
            obtain rfl := (Option.some.injEq _ _).mp h
            intro x hx
            rcases List.mem_append.mp hx with hx | hx
            · exact hinv.1 x hx
            · obtain rfl := List.mem_singleton.mp hx
              rw [(bt_closePosition_fields candles p x _ lastc.Close
                "End of Period" hc).2]
              exact hinv.2 p rfl
      · rw [if_neg hio] at h
        obtain rfl := (Option.some.injEq _ _).mp h
        exact hinv.1

/-- C8: with `TradeDirection = "long"` no `"short"`-side position ever
appears in the ledger returned by `Backtester.Run`, and symmetrically with
`TradeDirection = "short"` no `"long"`-side position appears. -/
theorem C8_direction_filter (candles : List Candle) (signals : List Signal)
    (config : ExecutionConfig) (res : List Position × backtestMetrics)
    (h : Backtester.Run candles signals config = some res) :
    (config.TradeDirection = "long" →
      res.1.all (fun p => p.Side != "short") = true) ∧
    (config.TradeDirection = "short" →
      res.1.all (fun p => p.Side != "long") = true) := by
  unfold Backtester.Run at h
  cases hs : Backtester.simulatePositions candles signals config with
  | none => rw [hs] at h; exact absurd h (by simp)
  | some ps =>
    rw [hs] at h
    obtain rfl := (Option.some.injEq _ _).mp h
    constructor
    · intro hdir
      have hgood : ∀ s : Signal,
          ¬((config.TradeDirection = "long" ∧ sideOf s = "short") ∨
            (config.TradeDirection = "short" ∧ sideOf s = "long")) →
          sideOf s ≠ "short" := by
        intro s hpass heq
        exact hpass (Or.inl ⟨hdir, heq⟩)
      have := simulatePositions_side_ne candles signals config "short" ps
        hgood hs
      simpa [List.all_eq_true] using this
    · intro hdir
      have hgood : ∀ s : Signal,
          ¬((config.TradeDirection = "long" ∧ sideOf s = "short") ∨
            (config.TradeDirection = "short" ∧ sideOf s = "long")) →
          sideOf s ≠ "long" := by
        intro s hpass heq
        exact hpass (Or.inr ⟨hdir, heq⟩)
      have := simulatePositions_side_ne candles signals config "long" ps
        hgood hs
      simpa [List.all_eq_true] using this

/-- Long-only config for the C8 witness. -/
def c8ConfigLong : ExecutionConfig :=
  { PositionSize := 1, TradeDirection := "long", TakeProfitPercent := 0
    StopLossPercent := 0 }

/-- Short-only config for the C8 witness. -/
def c8ConfigShort : ExecutionConfig :=
  { PositionSize := 1, TradeDirection := "short", TakeProfitPercent := 0
    StopLossPercent := 0 }

/-- A short signal, filtered out by the long-only config (and a long
signal filtered by the short-only one). -/
def c8ShortSignal : Signal :=
  { Index := 0, SigType := SignalType.short, Price := 100, Time := 1000, Reason := "d" }

/-- A long signal for the short-only run. -/
def c8LongSignal : Signal :=
  { Index := 0, SigType := SignalType.long, Price := 100, Time := 1000, Reason := "u" }

/-- Witness for C8: a long-only run fed a short signal (and a short-only run
fed a long signal) yields an empty ledger with no excluded-side entry. -/
theorem C8_direction_filter_witness :
    (([] : List Position).all (fun p => p.Side != "short") = true) ∧
    (([] : List Position).all (fun p => p.Side != "long") = true) :=
  ⟨(C8_direction_filter c7Candles [c8ShortSignal] c8ConfigLong
      ([], backtestMetrics.zero) (by decide)).1 rfl,
   (C8_direction_filter c7Candles [c8LongSignal] c8ConfigShort
      ([], backtestMetrics.zero) (by decide)).2 rfl⟩

/-- The C10 precondition, first half: every actionable signal's index is a
valid index into the candle sequence. -/
def validSignalIndices (candles : List Candle) (signals : List Signal) : Prop :=
  ∀ s ∈ signals, actionableSignal s →
    0 ≤ s.Index ∧ s.Index.toNat < candles.length

instance (candles : List Candle) (signals : List Signal) :
    Decidable (validSignalIndices candles signals) := by
  unfold validSignalIndices; infer_instance

/-- The C10 precondition, second half's trigger: a position remains open
after the signals are exhausted. -/
def positionRemainsOpen (candles : List Candle) (config : ExecutionConfig)
    (signals : List Signal) : Prop :=
  ∃ ledger p, Backtester.simulateLoop candles config signals [] none =
    some (ledger, some p) ∧ p.IsOpen = true

/-- A valid Go index hits a candle. -/
theorem candleAt_isSome (candles : List Candle) (i : Int) (h0 : 0 ≤ i)
    (hlt : i.toNat < candles.length) : ∃ c, candleAt candles i = some c := by
  unfold candleAt
  rw [if_pos h0]
  exact ⟨candles.get ⟨i.toNat, hlt⟩, List.get?_eq_get hlt⟩

/-- The Backtester's close succeeds on any in-bounds exit index. -/
theorem bt_closePosition_isSome (candles : List Candle) (pos : Position)
    (i : Int) (price : ℚ) (reason : String) (h0 : 0 ≤ i)
    (hlt : i.toNat < candles.length) :
    ∃ q, Backtester.closePosition candles pos i price reason = some q := by
  obtain ⟨c, hc⟩ := candleAt_isSome candles i h0 hlt
  unfold Backtester.closePosition
  rw [hc]
  exact ⟨_, rfl⟩

/-- Under valid actionable-signal indices the signal loop never panics. -/
theorem simulateLoop_total (candles : List Candle) (config : ExecutionConfig) :
    ∀ (signals : List Signal) (ledger : List Position) (cur : Option Position),
      validSignalIndices candles signals →
      ∃ st, Backtester.simulateLoop candles config signals ledger cur = some st := by
  intro signals
  induction signals with
  | nil => intro ledger cur _; exact ⟨(ledger, cur), rfl⟩
  | cons s rest ih =>
    intro ledger cur hvalid
    have hrest : validSignalIndices candles rest := fun s' hs' =>
      hvalid s' (List.mem_cons_of_mem _ hs')
    by_cases hA : (s.SigType ≠ SignalType.long ∧ s.SigType ≠ SignalType.short)
    · obtain ⟨st, hst⟩ := ih ledger cur hrest
      exact ⟨st, by simp only [Backtester.simulateLoop]; rw [if_pos hA]; exact hst⟩
    · have hact : actionableSignal s := by
        rcases not_and_or.mp hA with h | h
        · exact Or.inl (not_not.mp h)
        · exact Or.inr (not_not.mp h)
      obtain ⟨h0, hlt⟩ := hvalid s (List.mem_cons_self _ _) hact
      by_cases hB : ((config.TradeDirection = "long" ∧ sideOf s = "short") ∨
          (config.TradeDirection = "short" ∧ sideOf s = "long"))
      · obtain ⟨st, hst⟩ := ih ledger cur hrest
        exact ⟨st, by
          simp only [Backtester.simulateLoop]; rw [if_neg hA, if_pos hB]
          exact hst⟩
      · cases cur with
        | none =>
          obtain ⟨st, hst⟩ := ih ledger (some { Position.zero with
            EntryIndex := s.Index, EntryPrice := s.Price, EntryTime := s.Time
            Side := sideOf s, Size := config.PositionSize, IsOpen := true }) hrest
          exact ⟨st, by
            simp only [Backtester.simulateLoop]; rw [if_neg hA, if_neg hB]
            exact hst⟩
        | some p =>
          by_cases hio : p.IsOpen
          · obtain ⟨q, hq⟩ := bt_closePosition_isSome candles p s.Index s.Price
              "Trend Reversal" h0 hlt
            obtain ⟨st, hst⟩ := ih (ledger ++ [q]) (some { Position.zero with
              EntryIndex := s.Index, EntryPrice := s.Price, EntryTime := s.Time
              Side := sideOf s, Size := config.PositionSize, IsOpen := true }) hrest
            refine ⟨st, ?_⟩
            simp only [Backtester.simulateLoop]
            rw [if_neg hA, if_neg hB, if_pos hio, hq]
            exact hst
          · obtain ⟨st, hst⟩ := ih ledger (some { Position.zero with
              EntryIndex := s.Index, EntryPrice := s.Price, EntryTime := s.Time
              Side := sideOf s, Size := config.PositionSize, IsOpen := true }) hrest
            refine ⟨st, ?_⟩
            simp only [Backtester.simulateLoop]
            rw [if_neg hA, if_neg hB, if_neg hio]
            exact hst

/-- C10 (amended): the claimed precondition — every actionable signal's
index valid, and candles non-empty whenever a position remains open after
the signals — is *sufficient*: under it `Backtester.Run` performs no
out-of-range candle access and returns a result. -/
theorem C10_precondition_sufficient (candles : List Candle)
    (signals : List Signal) (config : ExecutionConfig)
    (hvalid : validSignalIndices candles signals)
    (hend : positionRemainsOpen candles config signals → candles ≠ []) :
    ∃ res, Backtester.Run candles signals config = some res := by
  obtain ⟨⟨ledger, cur⟩, hst⟩ :=
    simulateLoop_total candles config signals [] none hvalid
  cases cur with
  | none =>
    have hsim : Backtester.simulatePositions candles signals config =
        some ledger := by
      unfold Backtester.simulatePositions; rw [hst]
    exact ⟨_, by unfold Backtester.Run; rw [hsim, Option.map_some']⟩
  | some p =>
    by_cases hio : p.IsOpen
    · have hne : candles ≠ [] := hend ⟨ledger, p, hst, hio⟩
      have hlen : 0 < candles.length := List.length_pos.mpr hne
      obtain ⟨lastc, hlast⟩ : ∃ c, candles.getLast? = some c := by
        cases hl : candles.getLast? with
        | none => exact absurd (List.getLast?_eq_none_iff.mp hl) hne
        | some c => exact ⟨c, rfl⟩
      have h0 : (0 : Int) ≤ (candles.length : Int) - 1 := by omega
      have hlt : ((candles.length : Int) - 1).toNat < candles.length := by omega
      obtain ⟨q, hq⟩ := bt_closePosition_isSome candles p
        ((candles.length : Int) - 1) lastc.Close "End of Period" h0 hlt
      have hsim : Backtester.simulatePositions candles signals config =
          some (ledger ++ [q]) := by
        unfold Backtester.simulatePositions
        rw [hst]
        dsimp only
        rw [if_pos hio, hlast]
        dsimp only
        rw [hq]
      exact ⟨_, by unfold Backtester.Run; rw [hsim, Option.map_some']⟩
    · have hsim : Backtester.simulatePositions candles signals config =
          some ledger := by
        unfold Backtester.simulatePositions
        rw [hst]
        dsimp only
        rw [if_neg hio]
      exact ⟨_, by unfold Backtester.Run; rw [hsim, Option.map_some']⟩

/-- One candle for the C10 counterexample. -/
def c10Candles : List Candle := [{ Timestamp := 0, Close := 50 }]

/-- An actionable short signal whose index 5 is out of range for the
one-candle sequence. -/
def c10BadSignal : Signal :=
  { Index := 5, SigType := SignalType.short, Price := 10, Time := 0, Reason := "d" }

/-- The signal list of the C10 counterexample. -/
def c10Signals : List Signal := [c10BadSignal]

/-- Long-only config: the short signal above is filtered out. -/
def c10Config : ExecutionConfig :=
  { PositionSize := 1, TradeDirection := "long", TakeProfitPercent := 0
    StopLossPercent := 0 }

/-- C10 counterexample: the precondition is violated (an actionable signal
carries the out-of-range index 5) yet `Backtester.Run` performs no
out-of-range access and returns normally, because the direction filter
drops the signal before its index is ever used — so "without the
precondition they index out of range" is false. -/
theorem C10_precondition_not_necessary :
    ¬ validSignalIndices c10Candles c10Signals ∧
    Backtester.Run c10Candles c10Signals c10Config =
      some ([], backtestMetrics.zero) := by
  constructor
  · intro h
    obtain ⟨-, h2⟩ := h c10BadSignal (by simp [c10Signals]) (Or.inr rfl)
    simp [c10Candles, c10BadSignal] at h2
  · decide

/-- Valid one-candle, one-long-signal input for the C10 witness. -/
def c10wCandles : List Candle := [{ Timestamp := 100, Close := 10 }]

/-- The in-range long signal of the C10 witness. -/
def c10wSignals : List Signal :=
  [{ Index := 0, SigType := SignalType.long, Price := 10, Time := 100, Reason := "u" }]

/-- Witness for the amended C10 at a concrete in-range input. -/
theorem C10_precondition_witness :
    validSignalIndices c10wCandles c10wSignals ∧
    ∃ res, Backtester.Run c10wCandles c10wSignals c10Config = some res :=
  ⟨by decide,
   C10_precondition_sufficient c10wCandles c10wSignals c10Config (by decide)
     (fun _ => by simp [c10wCandles])⟩
